import Mathlib

/-!
# Storage core of dropbox-2.0 — shallow embedding

This file embeds the storage core of the `pk0205/dropbox-2.0` backend
(chunked upload sessions, content-addressed deduplication, parallel
multi-file upload, byte-range streaming download, share capabilities)
as pure Lean functions over an explicit state, translated from the Go
handlers in `handlers` (chunked upload / dedup / stream / delete) and
`handlers/share.go`, with the schema of `db/setup.go`.

Modelling conventions:
* Byte contents are `List Nat`; sha256 is modelled as an ideal
  collision-free digest (the digest of a byte sequence is the sequence
  itself), which preserves exactly the properties the handlers rely on:
  equal bytes give equal checksums and distinct bytes give distinct
  checksums.
* `uuid.New()` is modelled by a fresh-id counter in the state.
* The filesystem is a finite map from path ids to byte contents
  (`blobs` for final files, `chunkBlobs` keyed by session id and chunk
  number for in-flight chunks); `SaveFile`/`os.WriteFile` overwrite.
* `time.Now()` is an explicit `now : Nat` parameter; timestamps are Nat.
* bcrypt is modelled ideally: the stored value stands for the hash of
  the password it was created from, and the hash check succeeds exactly
  on that password.
* SQL rows are Lean structures; `QueryRow ... LIMIT 1` / single-row
  lookups are `List.find?`; `UPDATE ... WHERE` maps over matching rows;
  `COUNT(*)` is `List.length` of a filter (`checksum = $1` with a NULL
  argument matches no row, as in SQL).
-/

set_option maxRecDepth 100000

namespace Dropbox

/-- Byte content of a file or chunk. -/
abbrev Bytes := List Nat

/-- sha256 of byte content, modelled as an ideal (injective) digest. -/
def sha256Sum (b : Bytes) : Bytes := b

/-- A row of the `files` table (`db/setup.go`): logical file or folder.
Timestamps and mime type are omitted (no claim mentions them). -/
structure FileRow where
  id : Nat
  userId : Nat
  fileName : String
  originalName : String
  filePath : Option Nat
  fileSize : Int
  checksum : Option Bytes
  parentId : Option Nat
  isFolder : Bool
  deriving Repr, DecidableEq

/-- A row of the `chunk_uploads` table: a chunked-upload session. -/
structure ChunkUpload where
  id : Nat
  userId : Nat
  fileName : String
  totalChunks : Int
  chunkSize : Int
  totalSize : Int
  uploadedChunks : List Int
  status : String
  expiresAt : Nat
  deriving Repr, DecidableEq

/-- A row of the `share_links` table. `password` stores the bcrypt hash
(modelled ideally, see the file header), `none` when the share is not
password-protected. -/
structure ShareLink where
  id : Nat
  fileId : Nat
  userId : Nat
  token : Nat
  expiresAt : Option Nat
  password : Option String
  deriving Repr, DecidableEq

/-- Whole observable state: database tables plus the filesystem. -/
structure St where
  files : List FileRow
  sessions : List ChunkUpload
  chunkBlobs : List ((Nat × Int) × Bytes)
  blobs : List (Nat × Bytes)
  shares : List ShareLink
  nextId : Nat
  deriving Repr, DecidableEq

/-- The empty server state. -/
def St.empty : St :=
  { files := [], sessions := [], chunkBlobs := [], blobs := [], shares := [], nextId := 0 }

/-- Read a finite map (filesystem read). -/
def assocGet {α β : Type} [DecidableEq α] (l : List (α × β)) (k : α) : Option β :=
  (l.find? (fun p => decide (p.1 = k))).map (fun p => p.2)

/-- Write a finite map, overwriting any previous entry (file write). -/
def assocSet {α β : Type} [DecidableEq α] (l : List (α × β)) (k : α) (v : β) :
    List (α × β) :=
  (l.filter (fun p => !(decide (p.1 = k)))) ++ [(k, v)]

/-- Remove a key from a finite map (`os.Remove`). -/
def assocRemove {α β : Type} [DecidableEq α] (l : List (α × β)) (k : α) :
    List (α × β) :=
  l.filter (fun p => !(decide (p.1 = k)))

/-- `uuid.New()`: draw a fresh id from the state counter. -/
def newId (s : St) : Nat × St := (s.nextId, { s with nextId := s.nextId + 1 })

/-- An HTTP error response: status code and message. -/
structure HErr where
  status : Nat
  message : String
  deriving Repr, DecidableEq

instance {ε α : Type} [DecidableEq ε] [DecidableEq α] : DecidableEq (Except ε α) := fun x y =>
  match x, y with
  | .ok a, .ok b =>
    if h : a = b then .isTrue (by rw [h]) else .isFalse (by simp [h])
  | .error a, .error b =>
    if h : a = b then .isTrue (by rw [h]) else .isFalse (by simp [h])
  | .ok _, .error _ => .isFalse (by simp)
  | .error _, .ok _ => .isFalse (by simp)

/-- Whether a handler call produced a non-error result. -/
def exOk {ε α : Type} : Except ε α → Bool
  | .ok _ => true
  | .error _ => false

/-- The indices `0, 1, …, n-1` as integers (empty when `n ≤ 0`),
matching Go's `for i := 0; i < totalChunks; i++`. -/
def intRange (n : Int) : List Int := (List.range n.toNat).map Int.ofNat

/-- `ChunkSize` constant of the handlers (5MB). -/
def ChunkSize : Int := 5 * 1024 * 1024

/-- 24 hours: the session lifetime set by `ChunkedUploadInit`
(`time.Now().Add(24 * time.Hour)`), in milliseconds. -/
def dayMs : Nat := 86400000

/-- Response of `ChunkedUploadInit`. -/
structure InitResp where
  uploadId : Nat
  chunkSize : Int
  totalChunks : Int
  expiresAt : Nat
  deriving Repr, DecidableEq

/-- `ChunkedUploadInit` handler: inserts a `pending` session row with an
empty received set and a 24h expiry. The handler performs no validation
of `totalSize` or `totalChunks`. -/
def ChunkedUploadInit (s : St) (now userId : Nat) (fileName : String)
    (totalSize totalChunks : Int) : St × InitResp :=
  let (uploadId, s') := newId s
  let expiresAt := now + dayMs
  let sess : ChunkUpload :=
    { id := uploadId, userId := userId, fileName := fileName,
      totalChunks := totalChunks, chunkSize := ChunkSize,
      totalSize := totalSize, uploadedChunks := [], status := ("pending"),
      expiresAt := expiresAt }
  ({ s' with sessions := s'.sessions ++ [sess] },
   { uploadId := uploadId, chunkSize := ChunkSize,
     totalChunks := totalChunks, expiresAt := expiresAt })

/-- The session lookup of `ChunkedUploadChunk`:
`WHERE id=$1 AND user_id=$2 AND status='pending' AND expires_at > NOW()`. -/
def findChunkSession (s : St) (now userId uploadId : Nat) : Option ChunkUpload :=
  s.sessions.find? (fun u =>
    decide (u.id = uploadId ∧ u.userId = userId ∧ u.status = "pending" ∧ now < u.expiresAt))

/-- `UPDATE chunk_uploads ... WHERE id=$2`: update every matching row. -/
def updateSession (l : List ChunkUpload) (uploadId : Nat)
    (f : ChunkUpload → ChunkUpload) : List ChunkUpload :=
  l.map (fun u => if u.id = uploadId then f u else u)

/-- `ChunkedUploadChunk` handler: a chunk is accepted only when the
session row matches `status='pending'` and is unexpired; the chunk blob
is then saved (overwriting any previous blob at the same index) and the
index is appended (`array_append`) to `uploaded_chunks` while the status
is set to `uploading`. No bound is checked on the chunk index. -/
def ChunkedUploadChunk (s : St) (now userId uploadId : Nat) (chunkNum : Int)
    (chunk : Bytes) : St × Except HErr Int :=
  match findChunkSession s now userId uploadId with
  | none => (s, .error ⟨404, "Upload session not found or expired"⟩)
  | some _ =>
    let s1 := { s with chunkBlobs := assocSet s.chunkBlobs (uploadId, chunkNum) chunk }
    let s2 := { s1 with sessions := (updateSession s1.sessions uploadId
        (fun u => { u with uploadedChunks := u.uploadedChunks ++ [chunkNum],
                           status := ("uploading") })) }
    (s2, .ok chunkNum)

/-- The session lookup of `ChunkedUploadComplete`:
`WHERE id=$1 AND user_id=$2` — no status or expiry filter. -/
def findSession (s : St) (userId uploadId : Nat) : Option ChunkUpload :=
  s.sessions.find? (fun u => decide (u.id = uploadId ∧ u.userId = userId))

/-- The chunk-combining loop of `ChunkedUploadComplete`: read chunks in
index order, concatenating; on a missing chunk stop and report its
index. The first component is what has been written to the final file
so far (all chunks before the first missing one). -/
def readChunks (cb : List ((Nat × Int) × Bytes)) (uploadId : Nat) :
    List Int → Bytes × Option Int
  | [] => ([], none)
  | i :: rest =>
    match assocGet cb (uploadId, i) with
    | none => ([], some i)
    | some c =>
      (c ++ (readChunks cb uploadId rest).1, (readChunks cb uploadId rest).2)

/-- The 500 response of the combine loop on a missing chunk
(`"Failed to read chunk %d"`). -/
def chunkReadErr (i : Int) : HErr := ⟨500, ("Failed to read chunk ") ++ toString i⟩

/-- Delete every chunk blob of a session (`os.RemoveAll(chunkDir)`). -/
def removeSessionChunks (l : List ((Nat × Int) × Bytes)) (uploadId : Nat) :
    List ((Nat × Int) × Bytes) :=
  l.filter (fun p => !(decide (p.1.1 = uploadId)))

/-- Response of `ChunkedUploadComplete`. -/
structure CompleteResp where
  fileId : Nat
  fileName : String
  fileSize : Int
  checksum : Bytes
  deriving Repr, DecidableEq

/-- `ChunkedUploadComplete` handler. Looks up the session (any status),
creates the final file, combines chunks `0..totalChunks-1` in order
while hashing; a missing chunk aborts with a 500 read error (the final
file keeps the bytes written so far and no `files` row is inserted).
On success a `files` row is inserted whose `file_size` is the session's
declared `total_size` and whose checksum is the digest of the assembled
bytes; the chunk blobs are then removed and the session marked
`completed`. The received-index set (`uploaded_chunks`) is never read. -/
def ChunkedUploadComplete (s : St) (userId uploadId : Nat) :
    St × Except HErr CompleteResp :=
  match findSession s userId uploadId with
  | none => (s, .error ⟨404, "Upload session not found"⟩)
  | some sess =>
    let (fileId, s1) := newId s
    let finalPath := fileId
    let assembled := (readChunks s1.chunkBlobs uploadId (intRange sess.totalChunks)).1
    let failed := (readChunks s1.chunkBlobs uploadId (intRange sess.totalChunks)).2
    let s2 := { s1 with blobs := assocSet s1.blobs finalPath assembled }
    match failed with
    | some i => (s2, .error (chunkReadErr i))
    | none =>
      let checksum := sha256Sum assembled
      let row : FileRow :=
        { id := fileId, userId := userId, fileName := sess.fileName,
          originalName := sess.fileName, filePath := some finalPath,
          fileSize := sess.totalSize, checksum := some checksum,
          parentId := none, isFolder := false }
      let s3 := { s2 with files := s2.files ++ [row],
                          chunkBlobs := removeSessionChunks s2.chunkBlobs uploadId,
                          sessions := (updateSession s2.sessions uploadId
                            (fun u => { u with status := ("completed") })) }
      (s3, .ok { fileId := fileId, fileName := sess.fileName,
                 fileSize := sess.totalSize, checksum := checksum })

/-- The dedup lookup of `saveFileWithDeduplication`:
`SELECT id FROM files WHERE user_id=$1 AND checksum=$2 LIMIT 1`. -/
def findDedup (s : St) (userId : Nat) (checksum : Bytes) : Option FileRow :=
  s.files.find? (fun f => decide (f.userId = userId ∧ f.checksum = some checksum))

/-- `saveFileWithDeduplication`: reads the multipart file fully
(`content = none` models an unreadable file), hashes it, and either
registers a new logical row pointing at an existing owner-and-checksum
matching row's path (no bytes written), or writes a fresh blob and
registers a row pointing at it. `file_size` is the multipart header
size, i.e. the byte count. -/
def saveFileWithDeduplication (s : St) (userId : Nat) (name : String)
    (content : Option Bytes) : St × Except String Nat :=
  match content with
  | none => (s, .error ("failed to read file"))
  | some data =>
    let checksum := sha256Sum data
    match findDedup s userId checksum with
    | some existing =>
      let (newFileId, s1) := newId s
      let row : FileRow :=
        { id := newFileId, userId := userId, fileName := name,
          originalName := name, filePath := existing.filePath,
          fileSize := (data.length : Int), checksum := some checksum,
          parentId := none, isFolder := false }
      ({ s1 with files := s1.files ++ [row] }, .ok newFileId)
    | none =>
      let (fileId, s1) := newId s
      let s2 := { s1 with blobs := assocSet s1.blobs fileId data }
      let row : FileRow :=
        { id := fileId, userId := userId, fileName := name,
          originalName := name, filePath := some fileId,
          fileSize := (data.length : Int), checksum := some checksum,
          parentId := none, isFolder := false }
      ({ s2 with files := s2.files ++ [row] }, .ok fileId)

/-- One entry of the `results` array of `ParallelUpload`. -/
structure UploadResult where
  fileId : Option Nat
  fileName : String
  err : Option String
  deriving Repr, DecidableEq

/-- The worker loop of `ParallelUpload`: each input file is pushed
through `saveFileWithDeduplication` independently and `results[idx]` is
filled with either the new file id or the error message; a failure on
one file does not stop the others. -/
def parallelUploadGo (s : St) (userId : Nat) :
    List (String × Option Bytes) → St × List UploadResult
  | [] => (s, [])
  | (name, content) :: rest =>
    let r := saveFileWithDeduplication s userId name content
    let entry : UploadResult :=
      match r.2 with
      | .error e => { fileId := none, fileName := name, err := some e }
      | .ok fid => { fileId := some fid, fileName := name, err := none }
    let tail := parallelUploadGo r.1 userId rest
    (tail.1, entry :: tail.2)

/-- `ParallelUpload` handler: rejects an empty file list with a 400,
otherwise returns one result per input file. -/
def ParallelUpload (s : St) (userId : Nat)
    (inputs : List (String × Option Bytes)) :
    St × Except HErr (List UploadResult) :=
  if inputs.isEmpty then (s, .error ⟨400, "No files provided"⟩)
  else
    let r := parallelUploadGo s userId inputs
    (r.1, .ok r.2)

/-- The file lookup shared by download and delete:
`WHERE id=$1 AND user_id=$2`. -/
def findOwnedFile (s : St) (userId fileId : Nat) : Option FileRow :=
  s.files.find? (fun f => decide (f.id = fileId ∧ f.userId = userId))

/-- A successful download response. `contentRange` is the
`Content-Range` header `(start, end, size)` when a range was requested;
`body` is the byte stream actually sent. -/
structure DlResp where
  status : Nat
  contentRange : Option (Nat × Int × Int)
  contentLength : Int
  fileName : String
  body : Bytes
  deriving Repr, DecidableEq

/-- `StreamDownload` handler. The range header `bytes=start-end` is
given already parsed (an omitted end parses as `0`, which the handler
conflates with an explicit `0`). The handler clamps `end` to
`file_size-1` when it is `0` or `≥ file_size`, performs no other range
validation, sets status 206 with `Content-Range start-end/size` and
`Content-Length end-start+1`, seeks to `start` and streams the file to
EOF (`file.Seek(start, 0)` followed by `c.SendStream(file)` with no
upper bound). Without a range it streams the whole file, status 200. -/
def StreamDownload (s : St) (userId fileId : Nat)
    (range : Option (Nat × Nat)) : Except HErr DlResp :=
  match findOwnedFile s userId fileId with
  | none => .error ⟨404, "File not found"⟩
  | some f =>
    match f.filePath.bind (assocGet s.blobs) with
    | none => .error ⟨500, "Failed to open file"⟩
    | some content =>
      match range with
      | some (start, stop) =>
        let stopC : Int :=
          if stop = 0 ∨ (stop : Int) ≥ f.fileSize then f.fileSize - 1 else (stop : Int)
        .ok { status := 206,
              contentRange := some (start, stopC, f.fileSize),
              contentLength := stopC - (start : Int) + 1,
              fileName := f.originalName,
              body := content.drop start }
      | none =>
        .ok { status := 200, contentRange := none,
              contentLength := f.fileSize, fileName := f.originalName,
              body := content }

/-- `DeleteFile` handler: looks up the owned row, counts all rows with
the same checksum (`COUNT(*) ... WHERE checksum=$1`; a NULL checksum
matches no row), deletes the row, and removes the physical file only
when that count was at most 1. -/
def DeleteFile (s : St) (userId fileId : Nat) : St × Except HErr Unit :=
  match findOwnedFile s userId fileId with
  | none => (s, .error ⟨404, "File not found"⟩)
  | some f =>
    let refCount :=
      match f.checksum with
      | none => 0
      | some h => (s.files.filter (fun g => decide (g.checksum = some h))).length
    let s1 := { s with files :=
      (s.files.filter (fun g => !(decide (g.id = fileId ∧ g.userId = userId)))) }
    let s2 :=
      if refCount ≤ 1 then
        match f.filePath with
        | some p => { s1 with blobs := assocRemove s1.blobs p }
        | none => s1
      else s1
    (s2, .ok ())

/-- Ideal model of `bcrypt.CompareHashAndPassword`: the stored hash
matches exactly the password it was generated from. -/
def bcryptMatches (storedHash supplied : String) : Bool := storedHash = supplied

/-- The join of `GetSharedFile`:
`share_links sl JOIN files f ON sl.file_id = f.id WHERE sl.token=$1`. -/
def findShare (s : St) (token : Nat) : Option (ShareLink × FileRow) :=
  (s.shares.find? (fun sh => decide (sh.token = token))).bind
    (fun sh => (s.files.find? (fun f => decide (f.id = sh.fileId))).map
      (fun f => (sh, f)))

/-- `ExpiresAt != nil && ExpiresAt.Before(time.Now())`. -/
def isExpired (e : Option Nat) (now : Nat) : Bool :=
  match e with
  | none => false
  | some t => t < now

/-- Outcomes of resolving a share token; the constructors mirror the
distinct HTTP responses of `GetSharedFile` (404 link not found / 410
expired / 401 password required with `passwordProtected` marker / 401
invalid password / 500 open failure / 200 file stream / 200 folder
listing). -/
inductive ShareResult where
  | linkNotFound
  | linkExpired
  | passwordRequired
  | invalidPassword
  | openFailed
  | fileContent (name : String) (size : Int) (body : Bytes)
  | folderListing (folderId : Nat) (entries : List FileRow)
  deriving Repr, DecidableEq

/-- The final branch of `GetSharedFile`: folder listing
(`getSharedFolderContents`) or file stream. -/
def resolveTarget (s : St) (f : FileRow) : ShareResult :=
  if f.isFolder then
    .folderListing f.id (s.files.filter (fun g => decide (g.parentId = some f.id)))
  else
    match f.filePath.bind (assocGet s.blobs) with
    | none => .openFailed
    | some content => .fileContent f.originalName f.fileSize content

/-- `GetSharedFile` handler: token lookup, then expiry check, then
password check (an empty supplied password models the absent query
parameter, as `c.Query("password")` returns the empty string), then the
target. -/
def GetSharedFile (s : St) (now : Nat) (token : Nat)
    (suppliedPassword : String) : ShareResult :=
  match findShare s token with
  | none => .linkNotFound
  | some (sh, f) =>
    if isExpired sh.expiresAt now then .linkExpired
    else
      match sh.password with
      | some storedHash =>
        if suppliedPassword = "" then .passwordRequired
        else if ¬ bcryptMatches storedHash suppliedPassword then .invalidPassword
        else resolveTarget s f
      | none => resolveTarget s f

/-- Whether a list of received chunk indices, viewed as a set, equals
`{0, …, n-1}` — the property the spec's `Complete` contract is stated
in terms of. -/
def receivedSetEqualsRange (l : List Int) (n : Int) : Bool :=
  ((intRange n).all (fun i => l.contains i)) && (l.all (fun i => (intRange n).contains i))

/-! ## Concrete states and traces used by witnesses and counterexamples -/

/-- C1 trace: a fresh 1-chunk session for user 7 (upload id 0). -/
def c1st1 : St := (ChunkedUploadInit St.empty 0 7 ("a.bin") 3 1).1

/-- C1 trace: chunk 0 uploaded, so the received set is exactly `[0]`. -/
def c1st2 : St := (ChunkedUploadChunk c1st1 1 7 0 0 [10,20,30]).1

/-- C1 trace: state after the first (successful) `Complete`. -/
def c1st3 : St := (ChunkedUploadComplete c1st2 7 0).1

/-- A 2-chunk session row with both chunk blobs present (C1 witness). -/
def c1wSess : ChunkUpload :=
  { id := 0, userId := 7, fileName := ("big"), totalChunks := 2, chunkSize := ChunkSize,
    totalSize := 999, uploadedChunks := [0,1], status := ("uploading"), expiresAt := 5000 }

/-- State holding `c1wSess` and its two chunk blobs (C1 witness). -/
def c1wSt : St :=
  { files := [], sessions := [c1wSess],
    chunkBlobs := [((0,0), [1,2]), ((0,1), [3])], blobs := [], shares := [], nextId := 1 }

/-- C2 trace: whole-file upload of bytes `[1,2,3]` by user 7. -/
def c2st1 : St := (saveFileWithDeduplication St.empty 7 ("a") (some [1,2,3])).1

/-- C2 trace: a 1-chunk session (upload id 1) for the same content. -/
def c2st2 : St := (ChunkedUploadInit c2st1 0 7 ("b") 3 1).1

/-- C2 trace: chunk 0 of the session holds the same bytes `[1,2,3]`. -/
def c2st3 : St := (ChunkedUploadChunk c2st2 1 7 1 0 [1,2,3]).1

/-- C2 trace: result of completing the chunked upload. -/
def c2res : St × Except HErr CompleteResp := ChunkedUploadComplete c2st3 7 1

/-- The first `files` row of the C2 trace (created by the whole-file
upload of `[1,2,3]`). -/
def c2row0 : FileRow :=
  { id := 0, userId := 7, fileName := ("a"), originalName := ("a"), filePath := some 0,
    fileSize := 3, checksum := some [1,2,3], parentId := none, isFolder := false }

/-- C3 trace: a fresh 2-chunk session for user 7 (upload id 0). -/
def c3st1 : St := (ChunkedUploadInit St.empty 0 7 ("f.bin") 10 2).1

/-- C3 trace: result of uploading the first chunk (index 0). -/
def c3r0 : St × Except HErr Int := ChunkedUploadChunk c3st1 1 7 0 0 [1,2]

/-- C4: result of `Init` with `totalSize = 0` and `totalChunks = 0`. -/
def c4initR : St × InitResp := ChunkedUploadInit St.empty 0 7 ("z") 0 0

/-- C4: a fresh 2-chunk session (upload id 0). -/
def c4st : St := (ChunkedUploadInit St.empty 0 7 ("y") 10 2).1

/-- C4: result of uploading chunk index 99 — far outside `[0, 2)`. -/
def c4chunkR : St × Except HErr Int := ChunkedUploadChunk c4st 1 7 0 99 [5]

/-- The session row of `c4st` (C4 witness). -/
def c4wSess : ChunkUpload :=
  { id := 0, userId := 7, fileName := ("y"), totalChunks := 2, chunkSize := ChunkSize,
    totalSize := 10, uploadedChunks := [], status := ("pending"), expiresAt := dayMs }

/-- C5: first of two rows sharing checksum `[5,6]` and path 0. -/
def c5row0 : FileRow :=
  { id := 0, userId := 7, fileName := ("a"), originalName := ("a"), filePath := some 0,
    fileSize := 2, checksum := some [5,6], parentId := none, isFolder := false }

/-- C5: second row sharing the same checksum and path. -/
def c5row1 : FileRow :=
  { id := 1, userId := 7, fileName := ("b"), originalName := ("b"), filePath := some 0,
    fileSize := 2, checksum := some [5,6], parentId := none, isFolder := false }

/-- C5: state with two deduplicated rows over one physical blob. -/
def c5St : St :=
  { files := [c5row0, c5row1], sessions := [], chunkBlobs := [],
    blobs := [(0, [5,6])], shares := [], nextId := 2 }

/-- C6/C7: a stored 1000-byte file (row id 0, user 7). -/
def dlRow : FileRow :=
  { id := 0, userId := 7, fileName := ("f"), originalName := ("f"), filePath := some 0,
    fileSize := 1000, checksum := some (sha256Sum (List.range 1000)),
    parentId := none, isFolder := false }

/-- C6/C7: state holding `dlRow` and its 1000-byte blob. -/
def dlSt : St :=
  { files := [dlRow], sessions := [], chunkBlobs := [],
    blobs := [(0, List.range 1000)], shares := [], nextId := 1 }

/-- C8: the shared file (3 bytes, named `doc`). -/
def shFile : FileRow :=
  { id := 0, userId := 7, fileName := ("doc"), originalName := ("doc"), filePath := some 0,
    fileSize := 3, checksum := some (sha256Sum [9,9,9]), parentId := none, isFolder := false }

/-- C8: a password-protected share of `shFile` that expired at time 999. -/
def shExp : ShareLink :=
  { id := 100, fileId := 0, userId := 7, token := 10, expiresAt := some 999,
    password := some ("secret") }

/-- C8: a password-protected share of `shFile` expiring at time 2000. -/
def shLive : ShareLink :=
  { id := 101, fileId := 0, userId := 7, token := 11, expiresAt := some 2000,
    password := some ("secret") }

/-- C8: state with the shared file, its blob and both share links. -/
def shSt : St :=
  { files := [shFile], sessions := [], chunkBlobs := [], blobs := [(0, [9,9,9])],
    shares := [shExp, shLive], nextId := 1 }

/-- C9: five upload payloads of which the third is unreadable. -/
def c9inputs : List (String × Option Bytes) :=
  [(("f1"), some [1]), (("f2"), some [2]), (("f3"), none), (("f4"), some [4]),
   (("f5"), some [5])]

/-- C10: a session whose declared `total_size` (999) differs from the
total bytes of its two uploaded chunks (3). -/
def c10sess : ChunkUpload :=
  { id := 0, userId := 7, fileName := ("big"), totalChunks := 2, chunkSize := ChunkSize,
    totalSize := 999, uploadedChunks := [0,1], status := ("uploading"), expiresAt := 5000 }

/-- C10: state holding `c10sess` and its chunk blobs `[1,2]` and `[3]`. -/
def c10st : St :=
  { files := [], sessions := [c10sess],
    chunkBlobs := [((0,0), [1,2]), ((0,1), [3])], blobs := [], shares := [], nextId := 1 }

/-! ## Helper lemmas -/

/-- Looking up a key at the end of a list that does not contain it. -/
theorem find?_key_append_single {α β : Type} [DecidableEq α]
    (l : List (α × β)) (k : α) (v : β) (h : ∀ p ∈ l, ¬ p.1 = k) :
    (l ++ [(k, v)]).find? (fun p => decide (p.1 = k)) = some (k, v) := by
  induction l with
  | nil => simp [List.find?]
  | cons p t ih =>
    have hp := h p (by simp)
    simp only [List.cons_append, List.find?_cons, decide_eq_false hp]
    exact ih (fun q hq => h q (by simp [hq]))

/-- A map read immediately after a write of the same key. -/
theorem assocGet_assocSet_self {α β : Type} [DecidableEq α]
    (l : List (α × β)) (k : α) (v : β) :
    assocGet (assocSet l k v) k = some v := by
  unfold assocGet assocSet
  rw [find?_key_append_single]
  · simp
  · intro p hp
    have := (List.mem_filter.mp hp).2
    simpa using this

/-- The combine loop succeeds exactly when every chunk blob is present. -/
theorem readChunks_snd_none_iff (cb : List ((Nat × Int) × Bytes)) (uploadId : Nat)
    (l : List Int) :
    (readChunks cb uploadId l).2 = none ↔
      ∀ i ∈ l, (assocGet cb (uploadId, i)).isSome = true := by
  induction l with
  | nil => simp [readChunks]
  | cons i rest ih =>
    cases hc : assocGet cb (uploadId, i) <;>
      simp [readChunks, hc, ih]

/-- When the combine loop fails, the reported index is a missing chunk. -/
theorem readChunks_snd_some (cb : List ((Nat × Int) × Bytes)) (uploadId : Nat)
    (l : List Int) (i : Int) (h : (readChunks cb uploadId l).2 = some i) :
    assocGet cb (uploadId, i) = none ∧ i ∈ l := by
  induction l with
  | nil => simp [readChunks] at h
  | cons j rest ih =>
    cases hc : assocGet cb (uploadId, j) <;> simp [readChunks, hc] at h
    · subst h; simp [hc]
    · have := ih h
      exact ⟨this.1, by simp [this.2]⟩

/-- Filtering away only rows that cannot match a `find?` does not change
its result. -/
theorem find?_filter_of_imp {α : Type} (l : List α) (p q : α → Bool)
    (h : ∀ x, p x = true → q x = true) :
    (l.filter q).find? p = l.find? p := by
  induction l with
  | nil => simp
  | cons x t ih =>
    by_cases hq : q x = true
    · by_cases hp : p x = true <;> simp [List.filter_cons, hq, List.find?_cons, hp, ih]
    · have hp : p x = false := by
        cases hpx : p x
        · rfl
        · exact absurd (h x hpx) hq
      simp [List.filter_cons, hq, List.find?_cons, hp, ih]

/-- Two distinct members satisfying a predicate force the filtered
length to be at least 2. -/
theorem two_le_length_filter {α : Type} (l : List α) (p : α → Bool)
    (a b : α) (hab : a ≠ b) (ha : a ∈ l) (hb : b ∈ l)
    (hpa : p a = true) (hpb : p b = true) :
    2 ≤ (l.filter p).length := by
  induction l with
  | nil => simp at ha
  | cons x t ih =>
    rcases List.mem_cons.mp ha with rfl | hat
    · have hbt : b ∈ t := by
        rcases List.mem_cons.mp hb with rfl | h
        · exact absurd rfl hab
        · exact h
      have : 0 < (t.filter p).length :=
        List.length_pos.mpr (by
          intro h
          have := List.mem_filter.mpr ⟨hbt, hpb⟩
          simp [h] at this)
      simp [List.filter_cons, hpa]
      omega
    · rcases List.mem_cons.mp hb with rfl | hbt
      · have : 0 < (t.filter p).length :=
          List.length_pos.mpr (by
            intro h
            have := List.mem_filter.mpr ⟨hat, hpa⟩
            simp [h] at this)
        simp [List.filter_cons, hpb]
        omega
      · have := ih hat hbt
        cases hx : p x <;> simp [List.filter_cons, hx] <;> omega

/-- A duplicate-free list whose members are all equal has at most one. -/
theorem length_le_one_of_nodup_const {α : Type} (l : List α) (a : α)
    (hnd : l.Nodup) (h : ∀ x ∈ l, x = a) : l.length ≤ 1 := by
  match l with
  | [] => simp
  | [x] => simp
  | x :: y :: t =>
    have hx : x = a := h x (by simp)
    have hy : y = a := h y (by simp)
    have : x ≠ y := by
      have := List.nodup_cons.mp hnd
      intro he
      exact this.1 (he ▸ List.mem_cons_self y t)
    exact absurd (hx.trans hy.symm) this

/-- A readable payload is always stored successfully (either dedup
branch of `saveFileWithDeduplication` returns ok). -/
theorem saveFile_readable_ok (s : St) (u : Nat) (n : String) (b : Bytes) :
    exOk (saveFileWithDeduplication s u n (some b)).2 = true := by
  cases hd : findDedup s u (sha256Sum b) <;>
    simp [saveFileWithDeduplication, hd, exOk]

/-- The worker loop yields one entry per input, in input order: the
entry carries the input's name, an error marker exactly for unreadable
inputs, and a file id exactly for readable ones. -/
theorem parallelUploadGo_spec (u : Nat) (inputs : List (String × Option Bytes)) :
    ∀ s : St, ((parallelUploadGo s u inputs).2.length = inputs.length) ∧
      (∀ i, i < inputs.length →
        ∃ r inp, ((parallelUploadGo s u inputs).2)[i]? = some r ∧ inputs[i]? = some inp ∧
          r.fileName = inp.1 ∧
          (r.err.isSome = true ↔ inp.2 = none) ∧
          (r.fileId.isSome = true ↔ inp.2 ≠ none)) := by
  induction inputs with
  | nil =>
    intro s
    exact ⟨rfl, fun i hi => absurd hi (by simp)⟩
  | cons x rest ih =>
    intro s
    obtain ⟨name, content⟩ := x
    refine ⟨by simp [parallelUploadGo, (ih _).1], ?_⟩
    intro i hi
    match i with
    | 0 =>
      refine ⟨(parallelUploadGo s u ((name, content) :: rest)).2.head?.getD
        { fileId := none, fileName := name, err := none }, (name, content), ?_, by simp, ?_⟩
      all_goals cases content with
      | none => simp [parallelUploadGo, saveFileWithDeduplication]
      | some b =>
        cases hd : findDedup s u (sha256Sum b) <;>
          simp [parallelUploadGo, saveFileWithDeduplication, hd, newId]
    | j+1 =>
      have hj : j < rest.length := by simpa using hi
      obtain ⟨r, inp, h1, h2, h3⟩ := (ih (saveFileWithDeduplication s u name content).1).2 j hj
      exact ⟨r, inp, by simpa [parallelUploadGo] using h1, by simpa using h2, h3⟩

/-! ## Claims -/

/-- Claim C1 (amended): `Complete` never consults the session's
received-index set. It succeeds iff every chunk blob for indices
`0..totalChunks-1` is currently present in the chunk store; when one is
missing it fails with the 500 chunk-read error (not a distinct
`Incomplete` kind) and registers no `files` row. -/
theorem Complete_succeeds_iff_all_chunk_blobs_present (s : St) (userId uploadId : Nat)
    (sess : ChunkUpload) (h : findSession s userId uploadId = some sess) :
    (exOk (ChunkedUploadComplete s userId uploadId).2 = true ↔
      ∀ i ∈ intRange sess.totalChunks, (assocGet s.chunkBlobs (uploadId, i)).isSome = true) ∧
    (exOk (ChunkedUploadComplete s userId uploadId).2 = false →
      (ChunkedUploadComplete s userId uploadId).1.files = s.files ∧
      ∃ i, (ChunkedUploadComplete s userId uploadId).2 = .error (chunkReadErr i) ∧
        assocGet s.chunkBlobs (uploadId, i) = none) := by
  cases hr : (readChunks s.chunkBlobs uploadId (intRange sess.totalChunks)).2 with
  | none =>
    constructor
    · rw [iff_true_intro ((readChunks_snd_none_iff _ _ _).mp hr)]
      simp [ChunkedUploadComplete, h, newId, hr, exOk]
    · intro hfail
      exfalso
      simp [ChunkedUploadComplete, h, newId, hr, exOk] at hfail
  | some i =>
    have hmiss := readChunks_snd_some _ _ _ _ hr
    constructor
    · constructor
      · intro hok
        exfalso
        simp [ChunkedUploadComplete, h, newId, hr, exOk] at hok
      · intro hall
        exfalso
        have := (readChunks_snd_none_iff s.chunkBlobs uploadId (intRange sess.totalChunks)).mpr hall
        rw [hr] at this
        simp at this
    · intro _
      refine ⟨?_, i, ?_, hmiss.1⟩
      · simp [ChunkedUploadComplete, h, newId, hr]
      · simp [ChunkedUploadComplete, h, newId, hr]

/-- Claim C1 counterexample to the claim as stated: after a 1-chunk
session received chunk 0 and was completed once, its received-index set
(`[0]`) equals `{0, …, chunkCount−1}`, yet a second `Complete` fails
(the successful completion deleted the chunk blobs) — so "Complete
succeeds iff the received set equals the full range" is false; moreover
the failure is the 500 chunk-read error, not an `Incomplete` error. -/
theorem Complete_fails_despite_full_received_set :
    (ChunkedUploadComplete c1st2 7 0).2 =
      .ok { fileId := 1, fileName := ("a.bin"), fileSize := 3, checksum := [10,20,30] } ∧
    (findSession c1st3 7 0).map (fun u => u.uploadedChunks) = some [0] ∧
    (findSession c1st3 7 0).map (fun u => u.totalChunks) = some 1 ∧
    receivedSetEqualsRange [0] 1 = true ∧
    (ChunkedUploadComplete c1st3 7 0).2 = .error (chunkReadErr 0) := by decide

/-- Claim C1 witness: the amended theorem applied to a 2-chunk session
with both blobs present. -/
theorem Complete_succeeds_iff_witness :
    exOk (ChunkedUploadComplete c1wSt 7 0).2 = true :=
  (Complete_succeeds_iff_all_chunk_blobs_present c1wSt 7 0 c1wSess (by decide)).1.mpr
    (by decide)

/-- Claim C2 (amended): a whole-file upload deduplicates per owner —
when the owner already has a row with the content's hash, the upload
writes no physical bytes and registers a row sharing the existing
row's path and hash. (Chunked `Complete`, by contrast, never
deduplicates; see the counterexample.) -/
theorem whole_file_second_upload_dedups (s : St) (u : Nat) (n : String) (b : Bytes)
    (f : FileRow) (hf : findDedup s u (sha256Sum b) = some f) :
    (saveFileWithDeduplication s u n (some b)).2 = .ok s.nextId ∧
    (saveFileWithDeduplication s u n (some b)).1.blobs = s.blobs ∧
    (saveFileWithDeduplication s u n (some b)).1.files = s.files ++
      [{ id := s.nextId, userId := u, fileName := n, originalName := n,
         filePath := f.filePath, fileSize := (b.length : Int),
         checksum := some (sha256Sum b), parentId := none, isFolder := false }] := by
  refine ⟨?_, ?_, ?_⟩ <;> simp [saveFileWithDeduplication, hf, newId]

/-- Claim C2 counterexample to the claim as stated: user 7 uploads
`[1,2,3]` whole-file and then uploads the same bytes through a chunked
session. Both resulting rows carry the same checksum, but the chunked
completion wrote a second physical blob with the same content — two
blobs exist, not one. -/
theorem chunked_upload_duplicates_blob :
    exOk (saveFileWithDeduplication St.empty 7 ("a") (some [1,2,3])).2 = true ∧
    exOk c2res.2 = true ∧
    (c2res.1.files.filter (fun f => decide (f.checksum = some (sha256Sum [1,2,3])))).length = 2 ∧
    (c2res.1.blobs.filter (fun p => decide (p.2 = [1,2,3]))).length = 2 := by decide

/-- Claim C2 witness: the dedup theorem applied to the state after the
first whole-file upload of `[1,2,3]`. -/
theorem whole_file_dedup_witness :
    (saveFileWithDeduplication c2st1 7 ("b") (some [1,2,3])).1.blobs = c2st1.blobs :=
  (whole_file_second_upload_dedups c2st1 7 ("b") [1,2,3] c2row0 (by decide)).2.1

/-- Claim C3 (code bug): the first accepted chunk flips the session
status from `pending` to `uploading`, while the chunk handler's lookup
requires `status='pending'` — so every later chunk upload of the same
session, including a re-upload of an already-received index, is
rejected with the 404 "Upload session not found or expired" response,
contradicting the claim (and the repository's own API documentation,
which says to upload each chunk from 0 to totalChunks-1, in parallel). -/
theorem second_chunk_rejected_after_first :
    c3r0.2 = .ok 0 ∧
    (findSession c3r0.1 7 0).map (fun u => u.status) = some ("uploading") ∧
    (ChunkedUploadChunk c3r0.1 2 7 0 1 [3,4]).2 =
      .error ⟨404, "Upload session not found or expired"⟩ ∧
    (ChunkedUploadChunk c3r0.1 2 7 0 0 [9,9]).2 =
      .error ⟨404, "Upload session not found or expired"⟩ := by decide

/-- Claim C4 counterexample to the claim as stated: `Init` with
`chunkCount = 0` and `declaredSize = 0` does not fail — it creates a
session row; and a chunk upload with index 99 on a 2-chunk session does
not fail — the blob is stored and the index recorded. No
`ValidationError` exists in the code. -/
theorem init_and_chunk_skip_validation :
    c4initR.1.sessions =
      [{ id := 0, userId := 7, fileName := ("z"), totalChunks := 0, chunkSize := ChunkSize,
         totalSize := 0, uploadedChunks := [], status := ("pending"), expiresAt := dayMs }] ∧
    c4chunkR.2 = .ok 99 ∧
    assocGet c4chunkR.1.chunkBlobs (0, 99) = some [5] ∧
    (findSession c4chunkR.1 7 0).map (fun u => u.uploadedChunks) = some [99] := by decide

/-- Claim C4 (amended): no validation is performed. `Init` accepts any
`totalSize`/`totalChunks` (including non-positive values) and always
creates a `pending` session; on a pending unexpired session, a chunk
upload with any index whatsoever — in range or not — succeeds, stores
the blob, and appends the index to the received set. -/
theorem init_always_creates_session_and_any_index_accepted :
    (∀ (s : St) (now u : Nat) (nm : String) (ts tc : Int),
      (ChunkedUploadInit s now u nm ts tc).1.sessions = s.sessions ++
        [{ id := s.nextId, userId := u, fileName := nm, totalChunks := tc,
           chunkSize := ChunkSize, totalSize := ts, uploadedChunks := [],
           status := ("pending"), expiresAt := now + dayMs }]) ∧
    (∀ (s : St) (now u uid : Nat) (idx : Int) (ch : Bytes) (sess : ChunkUpload),
      findChunkSession s now u uid = some sess →
        (ChunkedUploadChunk s now u uid idx ch).2 = .ok idx ∧
        assocGet (ChunkedUploadChunk s now u uid idx ch).1.chunkBlobs (uid, idx) = some ch ∧
        (ChunkedUploadChunk s now u uid idx ch).1.sessions =
          updateSession s.sessions uid (fun v =>
            { v with uploadedChunks := v.uploadedChunks ++ [idx],
                     status := ("uploading") })) := by
  constructor
  · intro s now u nm ts tc
    simp [ChunkedUploadInit, newId]
  · intro s now u uid idx ch sess h
    refine ⟨?_, ?_, ?_⟩ <;> simp [ChunkedUploadChunk, h, assocGet_assocSet_self]

/-- Claim C4 witness: the amended theorem's chunk half applied to the
out-of-range index 99. -/
theorem skip_validation_witness :
    (ChunkedUploadChunk c4st 1 7 0 99 [5]).2 = .ok 99 :=
  (init_always_creates_session_and_any_index_accepted.2 c4st 1 7 0 99 [5] c4wSess
    (by decide)).1

/-- Claim C5: deleting an owned file row removes its physical bytes iff
no other row references the same checksum. When another row shares the
hash, no blob is touched, the only row removed is the deleted one, and
every surviving row downloads exactly as before; when the deleted row
was the last reference (given database rows have unique ids), its blob
is removed from storage. -/
theorem DeleteFile_removes_blob_iff_last_reference (s : St) (u fid : Nat) (f : FileRow)
    (hnodup : (s.files.map (fun g => g.id)).Nodup)
    (hf : findOwnedFile s u fid = some f)
    (h : Bytes) (hcs : f.checksum = some h)
    (p : Nat) (hp : f.filePath = some p) :
    (DeleteFile s u fid).2 = .ok () ∧
    ((∃ g ∈ s.files, ¬(g.id = fid ∧ g.userId = u) ∧ g.checksum = some h) →
      (DeleteFile s u fid).1.blobs = s.blobs ∧
      (DeleteFile s u fid).1.files =
        s.files.filter (fun g => !(decide (g.id = fid ∧ g.userId = u))) ∧
      (∀ g ∈ s.files, ¬(g.id = fid ∧ g.userId = u) →
        StreamDownload (DeleteFile s u fid).1 g.userId g.id none =
          StreamDownload s g.userId g.id none)) ∧
    ((∀ g ∈ s.files, g.checksum = some h → g.id = fid ∧ g.userId = u) →
      (DeleteFile s u fid).1.blobs = assocRemove s.blobs p) := by
  have hmem : f ∈ s.files := List.mem_of_find?_eq_some hf
  have hkey : f.id = fid ∧ f.userId = u := by
    have := List.find?_some hf
    simpa using this
  refine ⟨by simp [DeleteFile, hf], ?_, ?_⟩
  · rintro ⟨g, hg, hgkey, hgcs⟩
    have hfg : f ≠ g := by
      intro he
      exact hgkey (he ▸ hkey)
    have h2 : 2 ≤ (s.files.filter (fun g => decide (g.checksum = some h))).length :=
      two_le_length_filter s.files _ f g hfg hmem hg (by simp [hcs]) (by simp [hgcs])
    have hres : (DeleteFile s u fid).1 =
        { s with files :=
          (s.files.filter (fun g => !(decide (g.id = fid ∧ g.userId = u)))) } := by
      simp only [DeleteFile, hf, hcs]
      rw [if_neg (by omega)]
    refine ⟨by rw [hres], by rw [hres], ?_⟩
    intro g' hg' hg'key
    have hfind : findOwnedFile (DeleteFile s u fid).1 g'.userId g'.id =
        findOwnedFile s g'.userId g'.id := by
      unfold findOwnedFile
      rw [hres]
      exact find?_filter_of_imp _ _ _ (by
        intro x hx
        simp only [decide_eq_true_eq] at hx
        simp only [Bool.not_eq_true']
        apply decide_eq_false
        intro hxx
        exact hg'key ⟨hx.1 ▸ hxx.1, hx.2 ▸ hxx.2⟩)
    unfold StreamDownload
    rw [hfind, hres]
  · intro hall
    have hle : (s.files.filter (fun g => decide (g.checksum = some h))).length ≤ 1 := by
      have hsub : List.Sublist
          ((s.files.filter (fun g => decide (g.checksum = some h))).map
            (fun g => g.id))
          (s.files.map (fun g => g.id)) :=
        (List.filter_sublist s.files).map (fun g => g.id)
      have hnd : ((s.files.filter (fun g => decide (g.checksum = some h))).map
          (fun g => g.id)).Nodup := hnodup.sublist hsub
      have hconst : ∀ x ∈ ((s.files.filter (fun g => decide (g.checksum = some h))).map
          (fun g => g.id)), x = fid := by
        intro x hx
        rcases List.mem_map.mp hx with ⟨g, hgmem, rfl⟩
        have := List.mem_filter.mp hgmem
        exact (hall g this.1 (by simpa using this.2)).1
      have := length_le_one_of_nodup_const _ fid hnd hconst
      simpa using this
    simp only [DeleteFile, hf, hcs]
    rw [if_pos hle, hp]

/-- Claim C5 witness: deleting one of two rows that share checksum
`[5,6]` leaves the physical blob untouched. -/
theorem delete_dedup_witness :
    (DeleteFile c5St 7 1).1.blobs = c5St.blobs :=
  ((DeleteFile_removes_blob_iff_last_reference c5St 7 1 c5row1 (by decide) (by decide)
      [5,6] (by decide) 0 (by decide)).2.1
    ⟨c5row0, by decide, by decide, by decide⟩).1

/-- Claim C6 counterexample to the claim as stated: the range
`bytes=0-0` on a 1000-byte file is a valid in-bounds range
(`0 ≤ start ≤ end < S`), so the claim requires a 1-byte body with
descriptor `0-0/1000`; but the handler treats `end = 0` as "omitted"
and clamps it to `size-1`, answering with descriptor `0-999/1000`,
Content-Length 1000 and the whole file. -/
theorem range_end_zero_clamped :
    StreamDownload dlSt 7 0 (some (0, 0)) =
      .ok { status := 206, contentRange := some (0, 999, 1000), contentLength := 1000,
            fileName := ("f"), body := List.range 1000 } := by decide

/-- Claim C6 (amended): for a stored file and a range `bytes=start-end`
with `1 ≤ end < size`, the handler answers status 206 with Content-Range
descriptor `start-end/size` and a Content-Length header of
`end-start+1`; the streamed body, however, is the file's bytes from
offset `start` to end of file, not truncated at `end`. (A request with
`end = 0` is instead clamped to `end = size-1`.) -/
theorem range_request_sets_partial_headers (s : St) (u fid : Nat) (f : FileRow)
    (content : Bytes) (hf : findOwnedFile s u fid = some f)
    (hb : f.filePath.bind (assocGet s.blobs) = some content)
    (start stop : Nat) (h1 : 1 ≤ stop) (h2 : (stop : Int) < f.fileSize) :
    StreamDownload s u fid (some (start, stop)) =
      .ok { status := 206, contentRange := some (start, (stop : Int), f.fileSize),
            contentLength := (stop : Int) - (start : Int) + 1,
            fileName := f.originalName, body := content.drop start } := by
  have hcond : ¬(stop = 0 ∨ (stop : Int) ≥ f.fileSize) := by
    push_neg
    exact ⟨by omega, by omega⟩
  simp only [StreamDownload, hf, hb, if_neg hcond]

/-- Claim C6 witness: `bytes=0-99` on the 1000-byte file gives status
206, descriptor `0-99/1000` and Content-Length header 100 (the body is
the stream from offset 0, i.e. all 1000 bytes). -/
theorem range_headers_witness :
    StreamDownload dlSt 7 0 (some (0, 99)) =
      .ok { status := 206, contentRange := some (0, 99, 1000), contentLength := 100,
            fileName := ("f"), body := List.range 1000 } :=
  (range_request_sets_partial_headers dlSt 7 0 dlRow (List.range 1000) rfl rfl 0 99
    (by omega) (by decide)).trans (by decide)

/-- Claim C7 counterexample to the claim as stated: the inverted range
`bytes=500-100` on a 1000-byte file must, per the claim, fail with
`RangeNotSatisfiable`; the handler instead produces a Partial Content
response — status 206 with descriptor `500-100/1000` and a negative
Content-Length of -399. -/
theorem inverted_range_returns_partial_content :
    StreamDownload dlSt 7 0 (some (500, 100)) =
      .ok { status := 206, contentRange := some (500, 100, 1000), contentLength := -399,
            fileName := ("f"), body := (List.range 1000).drop 500 } := by decide

/-- Claim C7 (amended): the handler performs no range validation at
all — every range request on a found file, including `start > end` and
`start ≥ size`, yields a response with status 206 (Partial Content);
no `RangeNotSatisfiable` outcome exists in the code. -/
theorem any_range_yields_partial_content (s : St) (u fid : Nat) (f : FileRow)
    (content : Bytes) (hf : findOwnedFile s u fid = some f)
    (hb : f.filePath.bind (assocGet s.blobs) = some content)
    (start stop : Nat) :
    ∃ r, StreamDownload s u fid (some (start, stop)) = .ok r ∧ r.status = 206 := by
  simp only [StreamDownload, hf, hb]
  exact ⟨_, rfl, rfl⟩

/-- Claim C7 witness: the amended theorem applied to the inverted range
`bytes=500-100`. -/
theorem any_range_partial_witness :
    ∃ r, StreamDownload dlSt 7 0 (some (500, 100)) = .ok r ∧ r.status = 206 :=
  any_range_yields_partial_content dlSt 7 0 dlRow (List.range 1000) rfl rfl 500 100

/-- Claim C8: resolving a share token is gated by three independently
checked conditions with distinct outcomes: an unknown token gives
`linkNotFound`; a known token past its expiry gives `linkExpired`
regardless of the supplied password; a known unexpired
password-protected token gives `passwordRequired` when no password is
supplied (distinguishable from `invalidPassword`), `invalidPassword` on
a wrong password, and resolves to the target on the correct password. -/
theorem share_resolution_three_gates (s : St) (now tok : Nat) (pw : String) :
    (findShare s tok = none → GetSharedFile s now tok pw = .linkNotFound) ∧
    (∀ sh f, findShare s tok = some (sh, f) →
      (isExpired sh.expiresAt now = true → GetSharedFile s now tok pw = .linkExpired) ∧
      (isExpired sh.expiresAt now = false →
        (∀ hp, sh.password = some hp →
          (pw = "" → GetSharedFile s now tok pw = .passwordRequired) ∧
          (pw ≠ "" → bcryptMatches hp pw = false →
            GetSharedFile s now tok pw = .invalidPassword) ∧
          (pw ≠ "" → bcryptMatches hp pw = true →
            GetSharedFile s now tok pw = resolveTarget s f)) ∧
        (sh.password = none → GetSharedFile s now tok pw = resolveTarget s f))) := by
  constructor
  · intro h
    simp [GetSharedFile, h]
  · intro sh f h
    constructor
    · intro hexp
      simp [GetSharedFile, h, hexp]
    · intro hexp
      constructor
      · intro hp hpw
        refine ⟨?_, ?_, ?_⟩
        · intro hempty
          simp [GetSharedFile, h, hexp, hpw, hempty]
        · intro hne hbad
          simp [GetSharedFile, h, hexp, hpw, hne, hbad]
        · intro hne hgood
          simp [GetSharedFile, h, hexp, hpw, hne, hgood]
      · intro hnone
        simp [GetSharedFile, h, hexp, hnone]

/-- Claim C8 witness: all five outcomes at concrete states — unknown
token, expired token with the correct password, live protected token
with no / wrong / correct password. -/
theorem share_resolution_witness :
    GetSharedFile shSt 1000 5 ("secret") = .linkNotFound ∧
    GetSharedFile shSt 1000 10 ("secret") = .linkExpired ∧
    GetSharedFile shSt 1000 11 "" = .passwordRequired ∧
    GetSharedFile shSt 1000 11 ("wrong") = .invalidPassword ∧
    GetSharedFile shSt 1000 11 ("secret") = .fileContent ("doc") 3 [9,9,9] := by
  refine ⟨?_, ?_, ?_, ?_, ?_⟩
  · exact (share_resolution_three_gates shSt 1000 5 ("secret")).1 (by decide)
  · exact ((share_resolution_three_gates shSt 1000 10 ("secret")).2 shExp shFile
      (by decide)).1 (by decide)
  · exact ((((share_resolution_three_gates shSt 1000 11 "").2 shLive shFile
      (by decide)).2 (by decide)).1 ("secret") rfl).1 rfl
  · exact ((((share_resolution_three_gates shSt 1000 11 ("wrong")).2 shLive shFile
      (by decide)).2 (by decide)).1 ("secret") rfl).2.1 (by decide) (by decide)
  · exact (((((share_resolution_three_gates shSt 1000 11 ("secret")).2 shLive shFile
      (by decide)).2 (by decide)).1 ("secret") rfl).2.2 (by decide) (by decide)).trans
      (by decide)

/-- Claim C9: for every non-empty list of input files, a parallel
upload returns exactly one result per input file, in input order: each
result carries the input's name, a success result with the new file id
exactly for readable inputs, and an error entry exactly for unreadable
ones — a failure on one file does not abort the others. -/
theorem ParallelUpload_one_result_per_file (s : St) (u : Nat)
    (inputs : List (String × Option Bytes)) (hne : inputs ≠ []) :
    ∃ rs, (ParallelUpload s u inputs).2 = .ok rs ∧ rs.length = inputs.length ∧
      ∀ i, i < inputs.length →
        ∃ r inp, rs[i]? = some r ∧ inputs[i]? = some inp ∧
          r.fileName = inp.1 ∧
          (r.err.isSome = true ↔ inp.2 = none) ∧
          (r.fileId.isSome = true ↔ inp.2 ≠ none) := by
  have hne' : inputs.isEmpty = false := by
    cases inputs
    · exact absurd rfl hne
    · rfl
  refine ⟨(parallelUploadGo s u inputs).2, ?_, (parallelUploadGo_spec u inputs s).1,
    (parallelUploadGo_spec u inputs s).2⟩
  simp [ParallelUpload, hne']

/-- Claim C9 witness: five files of which the third is unreadable —
the other four succeed and the third gets a distinct error entry. -/
theorem parallel_upload_witness :
    c9inputs ≠ [] ∧
    (∃ rs, (ParallelUpload St.empty 7 c9inputs).2 = .ok rs ∧ rs.length = c9inputs.length ∧
      ∀ i, i < c9inputs.length →
        ∃ r inp, rs[i]? = some r ∧ c9inputs[i]? = some inp ∧
          r.fileName = inp.1 ∧
          (r.err.isSome = true ↔ inp.2 = none) ∧
          (r.fileId.isSome = true ↔ inp.2 ≠ none)) :=
  ⟨by decide, ParallelUpload_one_result_per_file St.empty 7 c9inputs (by decide)⟩

/-- Claim C10: the `files` row created by completing a chunked upload
records as its size the `total_size` declared at session init — not the
byte count of the assembled chunks — while its checksum is the digest
of the actual assembled bytes; the response's `fileSize` equals the
declared value as well. -/
theorem Complete_registers_declared_size (s : St) (u uid : Nat) (sess : ChunkUpload)
    (hs : findSession s u uid = some sess)
    (hall : (readChunks s.chunkBlobs uid (intRange sess.totalChunks)).2 = none) :
    (ChunkedUploadComplete s u uid).2 =
      .ok { fileId := s.nextId, fileName := sess.fileName, fileSize := sess.totalSize,
            checksum := sha256Sum ((readChunks s.chunkBlobs uid (intRange sess.totalChunks)).1) } ∧
    (ChunkedUploadComplete s u uid).1.files = s.files ++
      [{ id := s.nextId, userId := u, fileName := sess.fileName,
         originalName := sess.fileName, filePath := some s.nextId,
         fileSize := sess.totalSize,
         checksum := some (sha256Sum ((readChunks s.chunkBlobs uid (intRange sess.totalChunks)).1)),
         parentId := none, isFolder := false }] := by
  constructor <;> simp [ChunkedUploadComplete, hs, newId, hall]

/-- Claim C10 witness: a session with declared size 999 whose two
chunks assemble to only 3 bytes still registers `fileSize = 999`, with
the checksum computed over the 3 assembled bytes. -/
theorem declared_size_witness :
    c10sess.totalSize = 999 ∧
    (readChunks c10st.chunkBlobs 0 (intRange c10sess.totalChunks)).1 = [1,2,3] ∧
    (ChunkedUploadComplete c10st 7 0).2 =
      .ok { fileId := 1, fileName := ("big"), fileSize := 999,
            checksum := sha256Sum [1,2,3] } :=
  ⟨by decide, by decide, by
    exact ((Complete_registers_declared_size c10st 7 0 c10sess (by decide) (by decide)).1).trans
      (by decide)⟩

end Dropbox
